import Mathlib

/-!
Shallow embedding of the periodic metrics-sampling engine of
`system_monitor.py` (class `JarvisMonitor`), covering the state set up in
`__init__` (lines 36-53) and the per-tick method `update_stats`
(lines 739-826).

Modelling conventions:
- Wall-clock timestamps and time deltas are rationals (seconds).
- Cumulative byte counters are integers (psutil reports Python ints; the
  subtraction in the rate computation is ordinary integer subtraction and
  may be negative).
- Percentages and rates are rationals.
- Each fallible OS read of a tick is an `Except Unit` value supplied as
  input to the tick; tkinter label updates are modelled as fields of the
  monitor state holding the semantic value currently displayed.
- Python exception handling with side effects: statements executed before
  an exception keep their effects, so the tick body threads the state
  explicitly and an early error returns the state mutated so far.
-/

/-- Cumulative network byte counters, as returned by `psutil.net_io_counters()`. -/
structure NetIOCounters where
  bytes_sent : Int
  bytes_recv : Int
deriving DecidableEq

/-- Virtual-memory reading, as returned by `psutil.virtual_memory()`. -/
structure MemStats where
  percent : ℚ
  used : Int
  total : Int
deriving DecidableEq

/-- Battery reading, as returned by `psutil.sensors_battery()` when a battery exists. -/
structure BatteryStats where
  percent : ℚ
  power_plugged : Bool
deriving DecidableEq

/-- Semantic content of the battery label: the initial placeholder, a
percentage with plugged flag, the no-battery text `AC` (when
`sensors_battery()` returns `None`), or the sentinel `N/A` written by the
`except` handler at line 806. -/
inductive BatteryDisplay where
  | initial : BatteryDisplay
  | pct : ℚ → Bool → BatteryDisplay
  | ac : BatteryDisplay
  | na : BatteryDisplay
deriving DecidableEq

/-- One process-table entry as consumed by the selector at line 810:
a process name (list of characters) and its CPU percent. -/
abbrev ProcEntry := (List Char) × ℚ

/-- `collections.deque(maxlen)` append (line 50-53, 744, 751, 771, 772):
append at the right, evicting from the left whatever exceeds `maxlen`. -/
def dequeAppend (maxlen : Nat) (l : List ℚ) (v : ℚ) : List ℚ :=
  List.drop ((l ++ [v]).length - maxlen) (l ++ [v])

/-- The mutable state of `JarvisMonitor` relevant to the sampling engine:
the previous network sample and timestamp, the four history deques, and
the semantic values of the stat labels. -/
structure MonitorState where
  last_net_io : NetIOCounters
  last_update : ℚ
  cpu_history : List ℚ
  mem_history : List ℚ
  net_up_history : List ℚ
  net_down_history : List ℚ
  cpu_value : Option ℚ
  mem_value : Option ℚ
  mem_detail : Option (Int × Int)
  net_up_display : Option ℚ
  net_down_display : Option ℚ
  total_tx_display : Option Int
  total_rx_display : Option Int
  swap_display : Option ℚ
  proc_count_display : Option Nat
  battery_display : BatteryDisplay
  top_proc_display : Option (List Char)
  time_display : Option ℚ
  proc_mem_display : Option Int
deriving DecidableEq

/-- `JarvisMonitor.__init__` (lines 36-53): capture an initial
`net_io_counters()` reading and timestamp, and create the four history
deques pre-filled with sixty zeros (`max_data_points = 60`). -/
def initState (net0 : NetIOCounters) (t0 : ℚ) : MonitorState where
  last_net_io := net0
  last_update := t0
  cpu_history := List.replicate 60 0
  mem_history := List.replicate 60 0
  net_up_history := List.replicate 60 0
  net_down_history := List.replicate 60 0
  cpu_value := none
  mem_value := none
  mem_detail := none
  net_up_display := none
  net_down_display := none
  total_tx_display := none
  total_rx_display := none
  swap_display := none
  proc_count_display := none
  battery_display := BatteryDisplay.initial
  top_proc_display := none
  time_display := none
  proc_mem_display := none

/-- The OS readings consumed by one call of `update_stats`, each fallible
read wrapped in `Except Unit`.  `procs` carries one `Except` per process
yielded by `psutil.process_iter` (reading an individual entry can fail),
under an outer `Except` for the iteration itself. -/
structure TickInput where
  cpu : Except Unit ℚ
  cpu_freq : Except Unit Unit
  mem : Except Unit MemStats
  now : ℚ
  net_io : Except Unit NetIOCounters
  swap : Except Unit ℚ
  pids : Except Unit Nat
  battery : Except Unit (Option BatteryStats)
  procs : Except Unit (List (Except Unit ProcEntry))
  self_mem : Except Unit Int

/-- The list comprehension at lines 810-811: read the table entries in
order, truncating each name to its first 10 characters; evaluation is
sequential, so the first failing entry raises and aborts the whole
comprehension. -/
def readProcTable : List (Except Unit ProcEntry) → Except Unit (List ProcEntry)
  | [] => Except.ok []
  | Except.error e :: _ => Except.error e
  | Except.ok p :: rest =>
      match readProcTable rest with
      | Except.error e => Except.error e
      | Except.ok ps => Except.ok ((p.1.take 10, p.2) :: ps)

/-- Descending comparison on CPU percent.  Python's `sorted` is stable and
`reverse=True` preserves stability, so `sorted(procs, key=lambda x: x[1],
reverse=True)` is the stable descending sort, which `List.insertionSort`
computes with this relation (an element is inserted after every
strictly-greater element and before every equal-or-smaller one). -/
def procGe (a b : ProcEntry) : Prop := b.2 ≤ a.2

instance : DecidableRel procGe := fun a b => inferInstanceAs (Decidable (b.2 ≤ a.2))

/-- Lines 808-816: read the process table; stable-sort descending by CPU
percent; keep the first element (`[:1]`); report it only when its CPU
percent is strictly positive.  `none` means the label is not updated; any
read failure is caught by the surrounding `except: pass`, yielding `none`. -/
def top_cpu_consumer (table : List (Except Unit ProcEntry)) : Option ProcEntry :=
  match readProcTable table with
  | Except.error _ => none
  | Except.ok procs =>
      match (List.insertionSort procGe procs).head? with
      | none => none
      | some p => if 0 < p.2 then some p else none

/-- Lines 787-791 of `update_stats`: the swap reading in its own
`try/except`; on failure the label is left unchanged (`except: pass`). -/
def swap_step (s : MonitorState) (r : Except Unit ℚ) : MonitorState :=
  match r with
  | Except.ok v => { s with swap_display := some v }
  | Except.error _ => s

/-- Lines 793-796: the process-count reading in its own `try/except`; on
failure the label is left unchanged. -/
def pids_step (s : MonitorState) (r : Except Unit Nat) : MonitorState :=
  match r with
  | Except.ok n => { s with proc_count_display := some n }
  | Except.error _ => s

/-- Lines 798-806: the battery reading in its own `try/except`: a reading
shows percent and plugged flag, a `None` result shows `AC`, and an
exception is caught by the handler that writes the sentinel `N/A`. -/
def battery_step (s : MonitorState) (r : Except Unit (Option BatteryStats)) : MonitorState :=
  match r with
  | Except.ok (some b) => { s with battery_display := BatteryDisplay.pct b.percent b.power_plugged }
  | Except.ok none => { s with battery_display := BatteryDisplay.ac }
  | Except.error _ => { s with battery_display := BatteryDisplay.na }

/-- Lines 808-816: the top-process selection in its own `try/except`; the
label is updated only when a top consumer is reported. -/
def topproc_step (s : MonitorState) (r : Except Unit (List (Except Unit ProcEntry))) : MonitorState :=
  match r with
  | Except.error _ => s
  | Except.ok table =>
      match top_cpu_consumer table with
      | some p => { s with top_proc_display := some p.1 }
      | none => s

/-- Lines 818-821: footer updates — the time label always succeeds; the
monitor's own memory read is not individually protected, so its failure
escapes to the outer handler (second component `true`). -/
def footer_step (s : MonitorState) (now : ℚ) (r : Except Unit Int) : MonitorState × Bool :=
  let s := { s with time_display := some now }
  match r with
  | Except.error _ => (s, true)
  | Except.ok m => ({ s with proc_mem_display := some m }, false)

/-- Lines 786-821 of `update_stats`: the "live stats" updates in source
order — swap, process count, battery, top process, footer. -/
def update_tail (s : MonitorState) (inp : TickInput) : MonitorState × Bool :=
  footer_step
    (topproc_step
      (battery_step
        (pids_step
          (swap_step s inp.swap)
          inp.pids)
        inp.battery)
      inp.procs)
    inp.now inp.self_mem

/-- The body of `update_stats` inside the outer `try` (lines 741-821).
Returns the state as mutated so far, paired with `true` when an exception
escaped to the outer `except` (line 823), which logs it.  Inner
`try/except` blocks (swap, pids, battery, top process) contain their own
failures. -/
def update_stats_body (s : MonitorState) (inp : TickInput) : MonitorState × Bool :=
  match inp.cpu with
  | Except.error _ => (s, true)
  | Except.ok cpu =>
  let s := { s with
      cpu_history := dequeAppend 60 s.cpu_history cpu
      cpu_value := some cpu }
  match inp.cpu_freq with
  | Except.error _ => (s, true)
  | Except.ok _ =>
  match inp.mem with
  | Except.error _ => (s, true)
  | Except.ok mem =>
  let s := { s with
      mem_history := dequeAppend 60 s.mem_history mem.percent
      mem_value := some mem.percent
      mem_detail := some (mem.used, mem.total) }
  let now := inp.now
  match inp.net_io with
  | Except.error _ => (s, true)
  | Except.ok cur =>
  let time_delta := now - s.last_update
  let s :=
    if 0 < time_delta then
      let upload_speed : ℚ := ((cur.bytes_sent - s.last_net_io.bytes_sent : Int) : ℚ) / time_delta
      let download_speed : ℚ := ((cur.bytes_recv - s.last_net_io.bytes_recv : Int) : ℚ) / time_delta
      { s with
          net_up_history := dequeAppend 60 s.net_up_history upload_speed
          net_down_history := dequeAppend 60 s.net_down_history download_speed
          net_up_display := some upload_speed
          net_down_display := some download_speed
          total_tx_display := some cur.bytes_sent
          total_rx_display := some cur.bytes_recv }
    else s
  let s := { s with last_net_io := cur, last_update := now }
  update_tail s inp

/-- Result of one tick: the new state, whether the outer handler logged an
error, and whether the next tick was scheduled. -/
structure TickResult where
  state : MonitorState
  error_logged : Bool
  next_scheduled : Bool
deriving DecidableEq

/-- `update_stats` (lines 739-826): run the body under the outer
`try/except`, then unconditionally schedule the next tick
(`self.root.after(1000, self.update_stats)` at line 826 sits outside the
`try`). -/
def update_stats (s : MonitorState) (inp : TickInput) : TickResult :=
  let r := update_stats_body s inp
  { state := r.1, error_logged := r.2, next_scheduled := true }

/-- Specification-side characterisation of a stable descending sort's
first element: the first-encountered entry attaining the maximum CPU
percent (a later entry replaces the current best only when strictly
greater). -/
def firstMaxBy : List ProcEntry → Option ProcEntry
  | [] => none
  | x :: xs =>
      match firstMaxBy xs with
      | none => some x
      | some m => if m.2 ≤ x.2 then some x else some m

/-- Name truncation applied by the comprehension at line 810 to a list of
successful readings. -/
def truncTable (l : List ProcEntry) : List ProcEntry :=
  l.map (fun p => (p.1.take 10, p.2))

/-- The selector as the claim describes it: each failing process is
skipped individually and selection continues over the remaining
processes. -/
def top_cpu_consumer_skipping (table : List (Except Unit ProcEntry)) : Option ProcEntry :=
  let procs := truncTable (table.filterMap (fun r => r.toOption))
  match (List.insertionSort procGe procs).head? with
  | none => none
  | some p => if 0 < p.2 then some p else none

/-- Convenience inputs for concrete evaluations. -/
def baseInput : TickInput where
  cpu := Except.ok 10
  cpu_freq := Except.ok ()
  mem := Except.ok ⟨50, 100, 200⟩
  now := 1
  net_io := Except.ok ⟨1000, 2000⟩
  swap := Except.ok 5
  pids := Except.ok 42
  battery := Except.ok (some ⟨80, true⟩)
  procs := Except.ok []
  self_mem := Except.ok 7

lemma orderedInsert_head (x : ProcEntry) (l : List ProcEntry) :
    (List.orderedInsert procGe x l).head? =
      some (match l.head? with
            | none => x
            | some y => if y.2 ≤ x.2 then x else y) := by
  cases l with
  | nil => rfl
  | cons y ys =>
      by_cases h : y.2 ≤ x.2
      · have hg : procGe x y := h
        rw [List.orderedInsert_of_le _ _ hg]
        simp only [List.head?]
        rw [if_pos h]
      · have hg : ¬ procGe x y := h
        simp only [List.orderedInsert, if_neg hg, List.head?]
        rw [if_neg h]

lemma insertionSort_head (l : List ProcEntry) :
    (List.insertionSort procGe l).head? = firstMaxBy l := by
  induction l with
  | nil => rfl
  | cons x xs ih =>
      show (List.orderedInsert procGe x (List.insertionSort procGe xs)).head? = _
      rw [orderedInsert_head, ih]
      cases h : firstMaxBy xs with
      | none => simp [firstMaxBy, h]
      | some m => simp only [firstMaxBy, h]; split <;> rfl

lemma readProcTable_map_ok (l : List ProcEntry) :
    readProcTable (l.map Except.ok) = Except.ok (truncTable l) := by
  induction l with
  | nil => rfl
  | cons x xs ih => simp [readProcTable, ih, truncTable]

lemma readProcTable_mem {table : List (Except Unit ProcEntry)} {procs : List ProcEntry}
    (h : readProcTable table = Except.ok procs) :
    ∀ x ∈ procs, ∃ orig, Except.ok orig ∈ table ∧ x = (orig.1.take 10, orig.2) := by
  induction table generalizing procs with
  | nil =>
      simp only [readProcTable] at h
      cases h
      intro x hx
      cases hx
  | cons r rest ih =>
      cases r with
      | error e => simp [readProcTable] at h
      | ok p =>
          rw [readProcTable] at h
          split at h


          · cases h
          · rename_i ps hr
            injection h with h
            subst h
            intro x hx
            rcases List.mem_cons.mp hx with rfl | hx'
            · exact ⟨p, List.mem_cons_self _ _, rfl⟩
            · obtain ⟨orig, hmem, hx2⟩ := ih hr x hx'
              exact ⟨orig, List.mem_cons_of_mem _ hmem, hx2⟩

lemma readProcTable_error {table : List (Except Unit ProcEntry)}
    (h : Except.error () ∈ table) : readProcTable table = Except.error () := by
  induction table with
  | nil => cases h
  | cons r rest ih =>
      cases r with
      | error e => cases e; rfl
      | ok p =>
          have h' : Except.error () ∈ rest := by
            cases h with
            | tail _ h' => exact h'
          simp [readProcTable, ih h']

lemma swap_step_eq (s : MonitorState) (r : Except Unit ℚ) :
    swap_step s r = { s with
      swap_display := (match r with
        | Except.ok v => some v
        | Except.error _ => s.swap_display) } := by
  cases r <;> rfl

lemma pids_step_eq (s : MonitorState) (r : Except Unit Nat) :
    pids_step s r = { s with
      proc_count_display := (match r with
        | Except.ok n => some n
        | Except.error _ => s.proc_count_display) } := by
  cases r <;> rfl

lemma battery_step_eq (s : MonitorState) (r : Except Unit (Option BatteryStats)) :
    battery_step s r = { s with
      battery_display := (match r with
        | Except.ok (some b) => BatteryDisplay.pct b.percent b.power_plugged
        | Except.ok none => BatteryDisplay.ac
        | Except.error _ => BatteryDisplay.na) } := by
  rcases r with e | (_ | b) <;> rfl

lemma topproc_step_eq (s : MonitorState) (r : Except Unit (List (Except Unit ProcEntry))) :
    topproc_step s r = { s with
      top_proc_display := (match r with
        | Except.error _ => s.top_proc_display
        | Except.ok table =>
            match top_cpu_consumer table with
            | some p => some p.1
            | none => s.top_proc_display) } := by
  rcases r with e | table
  · rfl
  · dsimp only [topproc_step]
    cases top_cpu_consumer table <;> rfl

lemma footer_step_eq (s : MonitorState) (now : ℚ) (r : Except Unit Int) :
    footer_step s now r = ({ s with
      time_display := some now
      proc_mem_display := (match r with
        | Except.ok m => some m
        | Except.error _ => s.proc_mem_display) },
      (match r with
        | Except.ok _ => false
        | Except.error _ => true)) := by
  cases r <;> rfl

lemma update_tail_last_net_io (s : MonitorState) (inp : TickInput) :
    (update_tail s inp).1.last_net_io = s.last_net_io := by
  simp only [update_tail, footer_step_eq, topproc_step_eq, battery_step_eq, pids_step_eq,
    swap_step_eq]

lemma update_tail_last_update (s : MonitorState) (inp : TickInput) :
    (update_tail s inp).1.last_update = s.last_update := by
  simp only [update_tail, footer_step_eq, topproc_step_eq, battery_step_eq, pids_step_eq,
    swap_step_eq]

lemma update_tail_cpu_history (s : MonitorState) (inp : TickInput) :
    (update_tail s inp).1.cpu_history = s.cpu_history := by
  simp only [update_tail, footer_step_eq, topproc_step_eq, battery_step_eq, pids_step_eq,
    swap_step_eq]

lemma update_tail_mem_history (s : MonitorState) (inp : TickInput) :
    (update_tail s inp).1.mem_history = s.mem_history := by
  simp only [update_tail, footer_step_eq, topproc_step_eq, battery_step_eq, pids_step_eq,
    swap_step_eq]

lemma update_tail_net_up_history (s : MonitorState) (inp : TickInput) :
    (update_tail s inp).1.net_up_history = s.net_up_history := by
  simp only [update_tail, footer_step_eq, topproc_step_eq, battery_step_eq, pids_step_eq,
    swap_step_eq]

lemma update_tail_net_down_history (s : MonitorState) (inp : TickInput) :
    (update_tail s inp).1.net_down_history = s.net_down_history := by
  simp only [update_tail, footer_step_eq, topproc_step_eq, battery_step_eq, pids_step_eq,
    swap_step_eq]

lemma update_tail_cpu_value (s : MonitorState) (inp : TickInput) :
    (update_tail s inp).1.cpu_value = s.cpu_value := by
  simp only [update_tail, footer_step_eq, topproc_step_eq, battery_step_eq, pids_step_eq,
    swap_step_eq]

lemma update_tail_mem_value (s : MonitorState) (inp : TickInput) :
    (update_tail s inp).1.mem_value = s.mem_value := by
  simp only [update_tail, footer_step_eq, topproc_step_eq, battery_step_eq, pids_step_eq,
    swap_step_eq]

lemma update_tail_net_up_display (s : MonitorState) (inp : TickInput) :
    (update_tail s inp).1.net_up_display = s.net_up_display := by
  simp only [update_tail, footer_step_eq, topproc_step_eq, battery_step_eq, pids_step_eq,
    swap_step_eq]

lemma update_tail_net_down_display (s : MonitorState) (inp : TickInput) :
    (update_tail s inp).1.net_down_display = s.net_down_display := by
  simp only [update_tail, footer_step_eq, topproc_step_eq, battery_step_eq, pids_step_eq,
    swap_step_eq]

lemma update_tail_total_tx (s : MonitorState) (inp : TickInput) :
    (update_tail s inp).1.total_tx_display = s.total_tx_display := by
  simp only [update_tail, footer_step_eq, topproc_step_eq, battery_step_eq, pids_step_eq,
    swap_step_eq]

lemma update_tail_total_rx (s : MonitorState) (inp : TickInput) :
    (update_tail s inp).1.total_rx_display = s.total_rx_display := by
  simp only [update_tail, footer_step_eq, topproc_step_eq, battery_step_eq, pids_step_eq,
    swap_step_eq]

lemma update_tail_battery_error (s : MonitorState) (inp : TickInput)
    (hbatt : inp.battery = Except.error ()) :
    (update_tail s inp).1.battery_display = BatteryDisplay.na := by
  simp only [update_tail, footer_step_eq, topproc_step_eq, battery_step_eq, pids_step_eq,
    swap_step_eq, hbatt]

lemma update_tail_top_proc_none (s : MonitorState) (inp : TickInput)
    (table : List (Except Unit ProcEntry))
    (hprocs : inp.procs = Except.ok table) (hnone : top_cpu_consumer table = none) :
    (update_tail s inp).1.top_proc_display = s.top_proc_display := by
  simp only [update_tail, footer_step_eq, topproc_step_eq, battery_step_eq, pids_step_eq,
    swap_step_eq, hprocs, hnone]

lemma update_tail_snd_false (s : MonitorState) (inp : TickInput) (m : Int)
    (hself : inp.self_mem = Except.ok m) : (update_tail s inp).2 = false := by
  simp only [update_tail, footer_step_eq, hself]

lemma dequeAppend_length (n : Nat) (l : List ℚ) (v : ℚ) (h : l.length = n) :
    (dequeAppend n l v).length = n := by
  simp only [dequeAppend, List.length_drop, List.length_append, List.length_cons,
    List.length_nil, h]
  omega

lemma dequeAppend_getLast (n : Nat) (hn : 1 ≤ n) (l : List ℚ) (v : ℚ) :
    (dequeAppend n l v).getLast? = some v := by
  unfold dequeAppend
  have hle : (l ++ [v]).length - n ≤ l.length := by
    simp only [List.length_append, List.length_cons, List.length_nil]
    omega
  rw [List.drop_append_of_le_length hle, List.getLast?_concat]

lemma foldl_dequeAppend_length (n : Nat) (vs : List ℚ) (l : List ℚ) (h : l.length = n) :
    (vs.foldl (dequeAppend n) l).length = n := by
  induction vs generalizing l with
  | nil => simpa using h
  | cons x xs ih => exact ih _ (dequeAppend_length n l x h)

lemma foldl_dequeAppend_getLast (n : Nat) (hn : 1 ≤ n) (vs : List ℚ) (hvs : vs ≠ [])
    (l : List ℚ) : (vs.foldl (dequeAppend n) l).getLast? = vs.getLast? := by
  induction vs generalizing l with
  | nil => cases hvs rfl
  | cons x xs ih =>
      cases xs with
      | nil => simpa using dequeAppend_getLast n hn l x
      | cons y ys =>
          rw [List.foldl_cons, ih (by simp) _, List.getLast?_cons_cons]

/-- A tick input with all reads succeeding and a zero time delta against
`initState net0 0` (its `now` equals the initial timestamp). -/
def zeroDeltaInput : TickInput :=
  { baseInput with now := 0 }

/-- C5: every history buffer is pre-filled with sixty zeros at
construction (`initState`); a buffer maintained by `dequeAppend` with
capacity `n ≥ 1`, starting from `n` zeros, has length exactly `n` after
any sequence of pushes, and after at least `n` pushes (`M ≥ N`) its last
element is the most recently pushed value. -/
theorem C5_history_buffer_invariant (n : Nat) (hn : 1 ≤ n) (vs : List ℚ)
    (hM : n ≤ vs.length) :
    ((vs.foldl (dequeAppend n) (List.replicate n 0)).length = n) ∧
    ((vs.foldl (dequeAppend n) (List.replicate n 0)).getLast? = vs.getLast?) ∧
    (∀ ws : List ℚ, (ws.foldl (dequeAppend n) (List.replicate n 0)).length = n) ∧
    (∀ net0 t0, (initState net0 t0).cpu_history = List.replicate 60 (0 : ℚ) ∧
      (initState net0 t0).mem_history = List.replicate 60 (0 : ℚ) ∧
      (initState net0 t0).net_up_history = List.replicate 60 (0 : ℚ) ∧
      (initState net0 t0).net_down_history = List.replicate 60 (0 : ℚ)) := by
  have hvs : vs ≠ [] := by
    intro hc
    rw [hc] at hM
    simp at hM
    omega
  refine ⟨?_, ?_, ?_, ?_⟩
  · exact foldl_dequeAppend_length n vs _ (List.length_replicate n 0)
  · exact foldl_dequeAppend_getLast n hn vs hvs _
  · intro ws
    exact foldl_dequeAppend_length n ws _ (List.length_replicate n 0)
  · intro net0 t0
    exact ⟨rfl, rfl, rfl, rfl⟩

theorem C5_witness :
    ((1 ≤ 2) ∧ (2 ≤ ([(1 : ℚ), 2, 3]).length)) ∧
    ((([(1 : ℚ), 2, 3]).foldl (dequeAppend 2) (List.replicate 2 0)).length = 2) ∧
    ((([(1 : ℚ), 2, 3]).foldl (dequeAppend 2) (List.replicate 2 0)).getLast?
        = ([(1 : ℚ), 2, 3]).getLast?) ∧
    (∀ ws : List ℚ, (ws.foldl (dequeAppend 2) (List.replicate 2 0)).length = 2) ∧
    (∀ net0 t0, (initState net0 t0).cpu_history = List.replicate 60 (0 : ℚ) ∧
      (initState net0 t0).mem_history = List.replicate 60 (0 : ℚ) ∧
      (initState net0 t0).net_up_history = List.replicate 60 (0 : ℚ) ∧
      (initState net0 t0).net_down_history = List.replicate 60 (0 : ℚ)) :=
  ⟨⟨by norm_num, by norm_num⟩,
    C5_history_buffer_invariant 2 (by norm_num) [(1 : ℚ), 2, 3] (by norm_num)⟩

/-- C8: no error during a tick terminates the loop — `update_stats`
schedules the next tick for every state and every combination of
successful and failed readings, since `root.after(1000, ...)` at line 826
sits outside the `try/except`. -/
theorem C8_next_tick_always_scheduled (s : MonitorState) (inp : TickInput) :
    (update_stats s inp).next_scheduled = true := rfl

/-- C4: on a tick whose wall-clock delta is zero or negative, the rate
computation (the only division of the tick) is inside `if time_delta > 0`
and is skipped, so the previously displayed rates, the upload/download
history buffers, and the cumulative total displays are all left exactly
as they were. -/
theorem C4_nonpositive_delta_skips_rate (s : MonitorState) (inp : TickInput)
    (h : inp.now - s.last_update ≤ 0) :
    ((update_stats s inp).state.net_up_display = s.net_up_display) ∧
    ((update_stats s inp).state.net_down_display = s.net_down_display) ∧
    ((update_stats s inp).state.net_up_history = s.net_up_history) ∧
    ((update_stats s inp).state.net_down_history = s.net_down_history) ∧
    ((update_stats s inp).state.total_tx_display = s.total_tx_display) ∧
    ((update_stats s inp).state.total_rx_display = s.total_rx_display) := by
  unfold update_stats update_stats_body
  dsimp only
  cases hcpu : inp.cpu with
  | error e => simp
  | ok cpu =>
  cases hfreq : inp.cpu_freq with
  | error e => simp
  | ok u =>
  cases hmem : inp.mem with
  | error e => simp
  | ok mem =>
  cases hnet : inp.net_io with
  | error e => simp
  | ok cur =>
  dsimp only
  rw [if_neg (not_lt.mpr h)]
  simp [update_tail_net_up_display, update_tail_net_down_display,
    update_tail_net_up_history, update_tail_net_down_history,
    update_tail_total_tx, update_tail_total_rx]

theorem C4_witness :
    (zeroDeltaInput.now - (initState ⟨0, 0⟩ 0).last_update ≤ 0) ∧
    ((update_stats (initState ⟨0, 0⟩ 0) zeroDeltaInput).state.net_up_display
        = (initState ⟨0, 0⟩ 0).net_up_display) ∧
    ((update_stats (initState ⟨0, 0⟩ 0) zeroDeltaInput).state.net_down_display
        = (initState ⟨0, 0⟩ 0).net_down_display) ∧
    ((update_stats (initState ⟨0, 0⟩ 0) zeroDeltaInput).state.net_up_history
        = (initState ⟨0, 0⟩ 0).net_up_history) ∧
    ((update_stats (initState ⟨0, 0⟩ 0) zeroDeltaInput).state.net_down_history
        = (initState ⟨0, 0⟩ 0).net_down_history) ∧
    ((update_stats (initState ⟨0, 0⟩ 0) zeroDeltaInput).state.total_tx_display
        = (initState ⟨0, 0⟩ 0).total_tx_display) ∧
    ((update_stats (initState ⟨0, 0⟩ 0) zeroDeltaInput).state.total_rx_display
        = (initState ⟨0, 0⟩ 0).total_rx_display) :=
  ⟨by simp [zeroDeltaInput, baseInput, initState],
    C4_nonpositive_delta_skips_rate (initState ⟨0, 0⟩ 0) zeroDeltaInput
      (by simp [zeroDeltaInput, baseInput, initState])⟩

/-- C9: on a tick with all reads succeeding but a zero or negative
wall-clock delta, the rate displays, the upload/download history buffers
and the cumulative total displays are left unchanged, yet `last_net_io`
and `last_update` (lines 783-784, outside the `if time_delta > 0` block)
ARE replaced by the current sample and timestamp. -/
theorem C9_anomalous_tick_replaces_prev_sample (s : MonitorState) (inp : TickInput)
    (cpu : ℚ) (u : Unit) (mem : MemStats) (cur : NetIOCounters)
    (hcpu : inp.cpu = Except.ok cpu) (hfreq : inp.cpu_freq = Except.ok u)
    (hmem : inp.mem = Except.ok mem) (hnet : inp.net_io = Except.ok cur)
    (hdelta : inp.now - s.last_update ≤ 0) :
    ((update_stats s inp).state.net_up_display = s.net_up_display) ∧
    ((update_stats s inp).state.net_down_display = s.net_down_display) ∧
    ((update_stats s inp).state.net_up_history = s.net_up_history) ∧
    ((update_stats s inp).state.net_down_history = s.net_down_history) ∧
    ((update_stats s inp).state.total_tx_display = s.total_tx_display) ∧
    ((update_stats s inp).state.total_rx_display = s.total_rx_display) ∧
    ((update_stats s inp).state.last_net_io = cur) ∧
    ((update_stats s inp).state.last_update = inp.now) := by
  unfold update_stats update_stats_body
  dsimp only
  rw [hcpu, hfreq, hmem, hnet]
  dsimp only
  rw [if_neg (not_lt.mpr hdelta)]
  simp [update_tail_net_up_display, update_tail_net_down_display,
    update_tail_net_up_history, update_tail_net_down_history,
    update_tail_total_tx, update_tail_total_rx,
    update_tail_last_net_io, update_tail_last_update]

theorem C9_witness :
    (zeroDeltaInput.cpu = Except.ok 10) ∧
    (zeroDeltaInput.cpu_freq = Except.ok ()) ∧
    (zeroDeltaInput.mem = Except.ok ⟨50, 100, 200⟩) ∧
    (zeroDeltaInput.net_io = Except.ok ⟨1000, 2000⟩) ∧
    (zeroDeltaInput.now - (initState ⟨0, 0⟩ 0).last_update ≤ 0) ∧
    (((update_stats (initState ⟨0, 0⟩ 0) zeroDeltaInput).state.net_up_display
        = (initState ⟨0, 0⟩ 0).net_up_display) ∧
      ((update_stats (initState ⟨0, 0⟩ 0) zeroDeltaInput).state.net_down_display
        = (initState ⟨0, 0⟩ 0).net_down_display) ∧
      ((update_stats (initState ⟨0, 0⟩ 0) zeroDeltaInput).state.net_up_history
        = (initState ⟨0, 0⟩ 0).net_up_history) ∧
      ((update_stats (initState ⟨0, 0⟩ 0) zeroDeltaInput).state.net_down_history
        = (initState ⟨0, 0⟩ 0).net_down_history) ∧
      ((update_stats (initState ⟨0, 0⟩ 0) zeroDeltaInput).state.total_tx_display
        = (initState ⟨0, 0⟩ 0).total_tx_display) ∧
      ((update_stats (initState ⟨0, 0⟩ 0) zeroDeltaInput).state.total_rx_display
        = (initState ⟨0, 0⟩ 0).total_rx_display) ∧
      ((update_stats (initState ⟨0, 0⟩ 0) zeroDeltaInput).state.last_net_io = ⟨1000, 2000⟩) ∧
      ((update_stats (initState ⟨0, 0⟩ 0) zeroDeltaInput).state.last_update
        = zeroDeltaInput.now)) :=
  ⟨rfl, rfl, rfl, rfl, by simp [zeroDeltaInput, baseInput, initState],
    C9_anomalous_tick_replaces_prev_sample (initState ⟨0, 0⟩ 0) zeroDeltaInput
      10 () ⟨50, 100, 200⟩ ⟨1000, 2000⟩ rfl rfl rfl rfl
      (by simp [zeroDeltaInput, baseInput, initState])⟩

/-- C2 counterexample: the initial counter sample is captured in
`__init__`, not on a first tick, so the very first call of `update_stats`
after startup (state `initState ⟨0,0⟩ 0`, all reads succeeding, positive
delta) already computes and displays a network rate — the first tick's
snapshot does NOT have the rate absent as the claim states. -/
theorem C2_counterexample :
    (update_stats (initState ⟨0, 0⟩ 0) baseInput).state.net_up_display = some 1000 ∧
    (update_stats (initState ⟨0, 0⟩ 0) baseInput).state.net_down_display = some 2000 ∧
    (initState ⟨0, 0⟩ 0).net_up_display = none := by
  refine ⟨?_, ?_, rfl⟩ <;>
    norm_num [update_stats, update_stats_body, update_tail, swap_step, pids_step,
      battery_step, topproc_step, footer_step, initState, baseInput, top_cpu_consumer,
      readProcTable]

/-- C2 amended: the previous counter sample already exists at
construction (`__init__` captures it), so the first tick after startup —
like every later tick — computes and displays the network rate whenever
its wall-clock delta is positive; the rate is absent on a tick only when
the delta is zero or negative. -/
theorem C2_amended_first_tick_has_rate (net0 : NetIOCounters) (t0 : ℚ) (inp : TickInput)
    (cpu : ℚ) (u : Unit) (mem : MemStats) (cur : NetIOCounters)
    (hcpu : inp.cpu = Except.ok cpu) (hfreq : inp.cpu_freq = Except.ok u)
    (hmem : inp.mem = Except.ok mem) (hnet : inp.net_io = Except.ok cur)
    (hdelta : 0 < inp.now - t0) :
    (update_stats (initState net0 t0) inp).state.net_up_display
        = some (((cur.bytes_sent - net0.bytes_sent : Int) : ℚ) / (inp.now - t0)) ∧
    (update_stats (initState net0 t0) inp).state.net_down_display
        = some (((cur.bytes_recv - net0.bytes_recv : Int) : ℚ) / (inp.now - t0)) := by
  unfold update_stats update_stats_body initState
  dsimp only
  rw [hcpu, hfreq, hmem, hnet]
  dsimp only
  rw [if_pos hdelta]
  simp [update_tail_net_up_display, update_tail_net_down_display]

theorem C2_amended_witness :
    (baseInput.cpu = Except.ok 10) ∧
    (baseInput.cpu_freq = Except.ok ()) ∧
    (baseInput.mem = Except.ok ⟨50, 100, 200⟩) ∧
    (baseInput.net_io = Except.ok ⟨1000, 2000⟩) ∧
    (0 < baseInput.now - (0 : ℚ)) ∧
    ((update_stats (initState ⟨0, 0⟩ 0) baseInput).state.net_up_display
        = some ((((1000 : Int) - (0 : Int) : Int) : ℚ) / (baseInput.now - 0)) ∧
      (update_stats (initState ⟨0, 0⟩ 0) baseInput).state.net_down_display
        = some ((((2000 : Int) - (0 : Int) : Int) : ℚ) / (baseInput.now - 0))) :=
  ⟨rfl, rfl, rfl, rfl, by norm_num [baseInput],
    C2_amended_first_tick_has_rate ⟨0, 0⟩ 0 baseInput 10 () ⟨50, 100, 200⟩ ⟨1000, 2000⟩
      rfl rfl rfl rfl (by norm_num [baseInput])⟩

/-- A tick input whose network reading has both cumulative counters reset
to zero (below the previous sample's values). -/
def counterResetInput : TickInput :=
  { baseInput with net_io := Except.ok ⟨0, 0⟩ }

/-- C3 counterexample: with the previous sample at 1000 bytes sent and the
current reading reset to 0 over a 1-second delta, the code (line 767,
which has no `max(0, ...)` clamp) displays an upload rate of -1000 B/s —
negative, not the 0 the claim requires. -/
theorem C3_counterexample :
    (update_stats (initState ⟨1000, 500⟩ 0) counterResetInput).state.net_up_display
        = some (-1000) ∧
    ((-1000 : ℚ) < 0) := by
  constructor
  · norm_num [update_stats, update_stats_body, update_tail, swap_step, pids_step,
      battery_step, topproc_step, footer_step, initState, baseInput, counterResetInput,
      top_cpu_consumer, readProcTable]
  · norm_num

/-- C3 amended: for every pair of consecutive samples with a positive
delta the computed rate is exactly `(curr - prev) / delta` with NO
clamping at zero; in particular when the cumulative counter has decreased
(counter reset) the displayed rate is strictly negative. -/
theorem C3_amended_rate_unclamped (s : MonitorState) (inp : TickInput)
    (cpu : ℚ) (u : Unit) (mem : MemStats) (cur : NetIOCounters)
    (hcpu : inp.cpu = Except.ok cpu) (hfreq : inp.cpu_freq = Except.ok u)
    (hmem : inp.mem = Except.ok mem) (hnet : inp.net_io = Except.ok cur)
    (hdelta : 0 < inp.now - s.last_update) :
    ((update_stats s inp).state.net_up_display
        = some (((cur.bytes_sent - s.last_net_io.bytes_sent : Int) : ℚ)
            / (inp.now - s.last_update))) ∧
    ((update_stats s inp).state.net_down_display
        = some (((cur.bytes_recv - s.last_net_io.bytes_recv : Int) : ℚ)
            / (inp.now - s.last_update))) ∧
    (cur.bytes_sent < s.last_net_io.bytes_sent →
      ∃ q : ℚ, (update_stats s inp).state.net_up_display = some q ∧ q < 0) := by
  unfold update_stats update_stats_body
  dsimp only
  rw [hcpu, hfreq, hmem, hnet]
  dsimp only
  rw [if_pos hdelta]
  refine ⟨?_, ?_, ?_⟩
  · simp [update_tail_net_up_display]
  · simp [update_tail_net_down_display]
  · intro hreset
    refine ⟨((cur.bytes_sent - s.last_net_io.bytes_sent : Int) : ℚ)
        / (inp.now - s.last_update), ?_, ?_⟩
    · simp [update_tail_net_up_display]
    · apply div_neg_of_neg_of_pos _ hdelta
      have hint : (cur.bytes_sent - s.last_net_io.bytes_sent : Int) < 0 := by omega
      exact_mod_cast hint

theorem C3_amended_witness :
    (counterResetInput.cpu = Except.ok 10) ∧
    (counterResetInput.cpu_freq = Except.ok ()) ∧
    (counterResetInput.mem = Except.ok ⟨50, 100, 200⟩) ∧
    (counterResetInput.net_io = Except.ok ⟨0, 0⟩) ∧
    (0 < counterResetInput.now - (initState ⟨1000, 500⟩ 0).last_update) ∧
    (((update_stats (initState ⟨1000, 500⟩ 0) counterResetInput).state.net_up_display
        = some ((((0 : Int) - (initState ⟨1000, 500⟩ 0).last_net_io.bytes_sent : Int) : ℚ)
            / (counterResetInput.now - (initState ⟨1000, 500⟩ 0).last_update))) ∧
      ((update_stats (initState ⟨1000, 500⟩ 0) counterResetInput).state.net_down_display
        = some ((((0 : Int) - (initState ⟨1000, 500⟩ 0).last_net_io.bytes_recv : Int) : ℚ)
            / (counterResetInput.now - (initState ⟨1000, 500⟩ 0).last_update))) ∧
      (((0 : Int) < (initState ⟨1000, 500⟩ 0).last_net_io.bytes_sent) →
        ∃ q : ℚ, (update_stats (initState ⟨1000, 500⟩ 0) counterResetInput).state.net_up_display
            = some q ∧ q < 0)) := by
  refine ⟨rfl, rfl, rfl, rfl, by norm_num [counterResetInput, baseInput, initState], ?_⟩
  have h := C3_amended_rate_unclamped (initState ⟨1000, 500⟩ 0) counterResetInput
    10 () ⟨50, 100, 200⟩ ⟨0, 0⟩ rfl rfl rfl rfl
    (by norm_num [counterResetInput, baseInput, initState])
  exact ⟨h.1, h.2.1, fun hlt => h.2.2 (by simp [initState, hlt])⟩

/-- A tick input whose CPU read raises while everything else would
succeed. -/
def cpuFailInput : TickInput :=
  { baseInput with cpu := Except.error () }

/-- A tick input whose battery read raises while everything else
succeeds. -/
def batteryFailInput : TickInput :=
  { baseInput with battery := Except.error () }

/-- C1 counterexample: a failure of the CPU read (the first Counter Reader
field of the tick) is caught only by the tick-level handler at line 823,
so the remaining fields are NOT captured: memory is never read (its value
display stays `none` and its history buffer does not advance) and even the
battery display keeps its previous content instead of any sentinel —
contradicting the claim that a failed field leaves every other field
updating normally. -/
theorem C1_counterexample :
    (update_stats (initState ⟨0, 0⟩ 0) cpuFailInput).state.mem_value = none ∧
    (update_stats (initState ⟨0, 0⟩ 0) cpuFailInput).state.mem_history
        = List.replicate 60 0 ∧
    (update_stats (initState ⟨0, 0⟩ 0) cpuFailInput).state.battery_display
        = BatteryDisplay.initial ∧
    (update_stats (initState ⟨0, 0⟩ 0) cpuFailInput).error_logged = true :=
  ⟨rfl, rfl, rfl, rfl⟩

/-- C1 amended: field-level failure handling holds for the reads wrapped
in their own `try/except` (lines 786-816): in particular a battery read
failure substitutes the sentinel `N/A` and every earlier and later field
of the tick — CPU value and history, memory value and history, the stored
network sample, the rate when the delta is positive — is still captured
and updated normally, the error is contained (nothing is logged by the
outer handler) and the next tick is scheduled.  (A failure of the CPU,
memory or network read instead aborts the remainder of the tick body, as
the counterexample shows.) -/
theorem C1_amended_battery_failure_field_level (s : MonitorState) (inp : TickInput)
    (cpu : ℚ) (u : Unit) (mem : MemStats) (cur : NetIOCounters) (m : Int)
    (hcpu : inp.cpu = Except.ok cpu) (hfreq : inp.cpu_freq = Except.ok u)
    (hmem : inp.mem = Except.ok mem) (hnet : inp.net_io = Except.ok cur)
    (hbatt : inp.battery = Except.error ())
    (hself : inp.self_mem = Except.ok m) :
    ((update_stats s inp).state.battery_display = BatteryDisplay.na) ∧
    ((update_stats s inp).state.cpu_value = some cpu) ∧
    ((update_stats s inp).state.cpu_history = dequeAppend 60 s.cpu_history cpu) ∧
    ((update_stats s inp).state.mem_value = some mem.percent) ∧
    ((update_stats s inp).state.mem_history = dequeAppend 60 s.mem_history mem.percent) ∧
    ((update_stats s inp).state.last_net_io = cur) ∧
    (0 < inp.now - s.last_update →
      (update_stats s inp).state.net_up_display
        = some (((cur.bytes_sent - s.last_net_io.bytes_sent : Int) : ℚ)
            / (inp.now - s.last_update))) ∧
    ((update_stats s inp).error_logged = false) ∧
    ((update_stats s inp).next_scheduled = true) := by
  unfold update_stats update_stats_body
  dsimp only
  rw [hcpu, hfreq, hmem, hnet]
  dsimp only
  by_cases hd : 0 < inp.now - s.last_update
  · rw [if_pos hd]
    refine ⟨?_, ?_, ?_, ?_, ?_, ?_, ?_, ?_, rfl⟩
    · rw [update_tail_battery_error _ inp hbatt]
    · simp [update_tail_cpu_value]
    · simp [update_tail_cpu_history]
    · simp [update_tail_mem_value]
    · simp [update_tail_mem_history]
    · simp [update_tail_last_net_io]
    · intro _
      simp [update_tail_net_up_display]
    · simp [update_tail_snd_false _ inp m hself]
  · rw [if_neg hd]
    refine ⟨?_, ?_, ?_, ?_, ?_, ?_, ?_, ?_, rfl⟩
    · rw [update_tail_battery_error _ inp hbatt]
    · simp [update_tail_cpu_value]
    · simp [update_tail_cpu_history]
    · simp [update_tail_mem_value]
    · simp [update_tail_mem_history]
    · simp [update_tail_last_net_io]
    · intro hc
      exact absurd hc hd
    · simp [update_tail_snd_false _ inp m hself]

theorem C1_amended_witness :
    (batteryFailInput.cpu = Except.ok 10) ∧
    (batteryFailInput.cpu_freq = Except.ok ()) ∧
    (batteryFailInput.mem = Except.ok ⟨50, 100, 200⟩) ∧
    (batteryFailInput.net_io = Except.ok ⟨1000, 2000⟩) ∧
    (batteryFailInput.battery = Except.error ()) ∧
    (batteryFailInput.self_mem = Except.ok 7) ∧
    (((update_stats (initState ⟨0, 0⟩ 0) batteryFailInput).state.battery_display
        = BatteryDisplay.na) ∧
      ((update_stats (initState ⟨0, 0⟩ 0) batteryFailInput).state.cpu_value = some 10) ∧
      ((update_stats (initState ⟨0, 0⟩ 0) batteryFailInput).state.cpu_history
        = dequeAppend 60 (initState ⟨0, 0⟩ 0).cpu_history 10) ∧
      ((update_stats (initState ⟨0, 0⟩ 0) batteryFailInput).state.mem_value
        = some (⟨50, 100, 200⟩ : MemStats).percent) ∧
      ((update_stats (initState ⟨0, 0⟩ 0) batteryFailInput).state.mem_history
        = dequeAppend 60 (initState ⟨0, 0⟩ 0).mem_history (⟨50, 100, 200⟩ : MemStats).percent) ∧
      ((update_stats (initState ⟨0, 0⟩ 0) batteryFailInput).state.last_net_io = ⟨1000, 2000⟩) ∧
      (0 < batteryFailInput.now - (initState ⟨0, 0⟩ 0).last_update →
        (update_stats (initState ⟨0, 0⟩ 0) batteryFailInput).state.net_up_display
          = some ((((1000 : Int) - (initState ⟨0, 0⟩ 0).last_net_io.bytes_sent : Int) : ℚ)
              / (batteryFailInput.now - (initState ⟨0, 0⟩ 0).last_update))) ∧
      ((update_stats (initState ⟨0, 0⟩ 0) batteryFailInput).error_logged = false) ∧
      ((update_stats (initState ⟨0, 0⟩ 0) batteryFailInput).next_scheduled = true)) :=
  ⟨rfl, rfl, rfl, rfl, rfl, rfl,
    C1_amended_battery_failure_field_level (initState ⟨0, 0⟩ 0) batteryFailInput
      10 () ⟨50, 100, 200⟩ ⟨1000, 2000⟩ 7 rfl rfl rfl rfl rfl rfl⟩

/-- C6: the top-process selector computes, over any table of successful
readings, the first-encountered entry of maximal CPU percent (stable
descending sort, take first) and reports it only when its usage is
strictly positive; it reports nothing on an empty table, when every entry
failed to read, or when the maximum usage is 0; on the table
[("a",0),("b",5.2),("c",5.2)] it reports "b" with usage 5.2. -/
theorem C6_top_process_selector :
    (∀ l : List ProcEntry,
        top_cpu_consumer (l.map Except.ok)
          = match firstMaxBy (truncTable l) with
            | none => none
            | some m => if 0 < m.2 then some m else none) ∧
    (top_cpu_consumer [] = none) ∧
    (top_cpu_consumer [Except.error (), Except.error ()] = none) ∧
    (top_cpu_consumer [Except.ok (['a'], 0), Except.ok (['b'], 5.2), Except.ok (['c'], 5.2)]
        = some (['b'], 5.2)) ∧
    (top_cpu_consumer [Except.ok (['a'], 0), Except.ok (['b'], 0), Except.ok (['c'], 0)]
        = none) := by
  refine ⟨?_, rfl, rfl, ?_, ?_⟩
  · intro l
    unfold top_cpu_consumer
    rw [readProcTable_map_ok]
    dsimp only
    rw [insertionSort_head]
  · norm_num [top_cpu_consumer, readProcTable, List.insertionSort, List.orderedInsert, procGe]
  · norm_num [top_cpu_consumer, readProcTable, List.insertionSort, List.orderedInsert, procGe]

/-- A process table in which the second entry fails to read. -/
def abortTable : List (Except Unit ProcEntry) :=
  [Except.ok (['a', 'a'], 5), Except.error (), Except.ok (['b', 'b'], 3)]

/-- A tick input whose process iteration yields `abortTable`. -/
def procFailInput : TickInput :=
  { baseInput with procs := Except.ok abortTable }

/-- C7 counterexample: on the table [ok ("aa",5), failed, ok ("bb",3)] the
code's selection (whose `try/except` wraps the whole comprehension,
lines 808-816) yields nothing, while the per-process-skip semantics the
claim describes would still report ("aa",5): one process's failure aborts
the selection over the remaining processes. -/
theorem C7_counterexample :
    top_cpu_consumer abortTable = none ∧
    top_cpu_consumer_skipping abortTable = some (['a', 'a'], 5) := by
  constructor
  · rfl
  · norm_num [top_cpu_consumer_skipping, abortTable, truncTable, List.insertionSort,
      List.orderedInsert, procGe]

/-- C7 amended: a read failure on any individual process aborts the WHOLE
selection for that tick — the exception is swallowed by the
selection-level handler, the top-process display keeps its previous
value, and the tick continues (the next tick is still scheduled); the
failing process is not skipped individually. -/
theorem C7_amended_failure_aborts_selection (s : MonitorState) (inp : TickInput)
    (table : List (Except Unit ProcEntry))
    (hprocs : inp.procs = Except.ok table) (hfail : Except.error () ∈ table) :
    (top_cpu_consumer table = none) ∧
    ((update_stats s inp).state.top_proc_display = s.top_proc_display) ∧
    ((update_stats s inp).next_scheduled = true) := by
  have hnone : top_cpu_consumer table = none := by
    unfold top_cpu_consumer
    rw [readProcTable_error hfail]
  refine ⟨hnone, ?_, rfl⟩
  unfold update_stats update_stats_body
  dsimp only
  cases hcpu : inp.cpu with
  | error e => simp
  | ok cpu =>
  cases hfreq : inp.cpu_freq with
  | error e => simp
  | ok u =>
  cases hmem : inp.mem with
  | error e => simp
  | ok mem =>
  cases hnet : inp.net_io with
  | error e => simp
  | ok cur =>
  dsimp only
  rw [update_tail_top_proc_none _ inp table hprocs hnone]
  split <;> rfl

theorem C7_amended_witness :
    (procFailInput.procs = Except.ok abortTable) ∧
    (Except.error () ∈ abortTable) ∧
    ((top_cpu_consumer abortTable = none) ∧
      ((update_stats (initState ⟨0, 0⟩ 0) procFailInput).state.top_proc_display
        = (initState ⟨0, 0⟩ 0).top_proc_display) ∧
      ((update_stats (initState ⟨0, 0⟩ 0) procFailInput).next_scheduled = true)) :=
  ⟨rfl, by simp [abortTable],
    C7_amended_failure_aborts_selection (initState ⟨0, 0⟩ 0) procFailInput abortTable rfl
      (by simp [abortTable])⟩

/-- C10: whenever the selector reports a top process, the reported name is
the 10-character truncation (`[:10]`, line 810) of the name of some
process in the table — hence always a prefix of an OS-reported name, of
length at most 10. -/
theorem C10_top_process_name_truncation (table : List (Except Unit ProcEntry)) (p : ProcEntry)
    (h : top_cpu_consumer table = some p) :
    p.1.length ≤ 10 ∧
    ∃ orig : ProcEntry, Except.ok orig ∈ table ∧ p.1 = orig.1.take 10 := by
  unfold top_cpu_consumer at h
  cases hr : readProcTable table with
  | error e =>
      rw [hr] at h
      cases h
  | ok procs =>
      rw [hr] at h
      dsimp only at h
      cases hq : (List.insertionSort procGe procs).head? with
      | none =>
          rw [hq] at h
          cases h
      | some q =>
          rw [hq] at h
          dsimp only at h
          by_cases hpos : 0 < q.2
          · rw [if_pos hpos] at h
            have hqp : q = p := Option.some.inj h
            subst hqp
            have hmem : q ∈ procs :=
              (List.perm_insertionSort procGe procs).subset
                (List.mem_of_mem_head? (Option.mem_def.mpr hq))
            obtain ⟨orig, horig, hp⟩ := readProcTable_mem hr q hmem
            refine ⟨?_, orig, horig, ?_⟩
            · rw [hp]
              simp only [List.length_take]
              omega
            · rw [hp]
          · rw [if_neg hpos] at h
            cases h

/-- A single-entry table whose process name is three characters long. -/
def truncDemoTable : List (Except Unit ProcEntry) :=
  [Except.ok (['a', 'b', 'c'], 1)]

theorem C10_witness :
    (top_cpu_consumer truncDemoTable = some (['a', 'b', 'c'], 1)) ∧
    (((['a', 'b', 'c'], (1 : ℚ)) : ProcEntry).1.length ≤ 10 ∧
      ∃ orig : ProcEntry, Except.ok orig ∈ truncDemoTable ∧
        ((['a', 'b', 'c'], (1 : ℚ)) : ProcEntry).1 = orig.1.take 10) := by
  have hsel : top_cpu_consumer truncDemoTable = some (['a', 'b', 'c'], 1) := by
    norm_num [top_cpu_consumer, truncDemoTable, readProcTable, List.insertionSort,
      List.orderedInsert, procGe]
  exact ⟨hsel, C10_top_process_name_truncation truncDemoTable (['a', 'b', 'c'], 1) hsel⟩
